import Mathlib

/-!
Verification of the certificate-generation pipeline of the Blocks backend
(`CertificatesService` in `src/certificates`, `PdfService` in `src/pdf`).

The TypeScript source is shallowly embedded: pure helpers become Lean
functions; the orchestrator methods become functions from an explicit
environment (the external collaborators: object store, renderers, clock)
and a database snapshot to a result together with an effect trace and the
updated database.  Machine integers are `Nat` with explicit `% 2 ^ 32`
where 32-bit overflow matters (the SHA-256 compression), monetary values
are exact rationals (`Rat`) mirroring the arbitrary-precision `Decimal`
collaborator, and fallible steps return `Except`.
-/

/-! ## SHA-256 over byte lists (model of Node `crypto.createHash('sha256')`)

Faithful FIPS 180-4 implementation on `Nat`, all words kept `< 2 ^ 32`
by explicit masking.  Executable and kernel-reducible (structural
recursion only), so digests of concrete inputs evaluate by `decide`.
-/

def m32 : Nat := 4294967296

def mask32 : Nat := 4294967295

def add32 (a b : Nat) : Nat := (a + b) % m32

def rotr32 (n a : Nat) : Nat := ((a >>> n) ||| (a <<< (32 - n))) &&& mask32

def shr32 (n a : Nat) : Nat := a >>> n

def bsig0 (x : Nat) : Nat := (rotr32 2 x) ^^^ (rotr32 13 x) ^^^ (rotr32 22 x)

def bsig1 (x : Nat) : Nat := (rotr32 6 x) ^^^ (rotr32 11 x) ^^^ (rotr32 25 x)

def ssig0 (x : Nat) : Nat := (rotr32 7 x) ^^^ (rotr32 18 x) ^^^ (shr32 3 x)

def ssig1 (x : Nat) : Nat := (rotr32 17 x) ^^^ (rotr32 19 x) ^^^ (shr32 10 x)

def chFn (x y z : Nat) : Nat := (x &&& y) ^^^ ((x ^^^ mask32) &&& z)

def majFn (x y z : Nat) : Nat := (x &&& y) ^^^ (x &&& z) ^^^ (y &&& z)

def sha256K : List Nat :=
  [1116352408, 1899447441, 3049323471, 3921009573, 961987163,
   1508970993, 2453635748, 2870763221, 3624381080, 310598401,
   607225278, 1426881987, 1925078388, 2162078206, 2614888103,
   3248222580, 3835390401, 4022224774, 264347078, 604807628,
   770255983, 1249150122, 1555081692, 1996064986, 2554220882,
   2821834349, 2952996808, 3210313671, 3336571891, 3584528711,
   113926993, 338241895, 666307205, 773529912, 1294757372,
   1396182291, 1695183700, 1986661051, 2177026350, 2456956037,
   2730485921, 2820302411, 3259730800, 3345764771, 3516065817,
   3600352804, 4094571909, 275423344, 430227734, 506948616,
   659060556, 883997877, 958139571, 1322822218, 1537002063,
   1747873779, 1955562222, 2024104815, 2227730452, 2361852424,
   2428436474, 2756734187, 3204031479, 3329325298]

structure Sha256State where
  a : Nat
  b : Nat
  c : Nat
  d : Nat
  e : Nat
  f : Nat
  g : Nat
  h : Nat
deriving Repr, DecidableEq

def sha256Init : Sha256State :=
  ⟨1779033703, 3144134277, 1013904242, 2773480762,
   1359893119, 2600822924, 528734635, 1541459225⟩

/-- One compression round for a given round constant and schedule word. -/
def sha256Round (st : Sha256State) (kw : Nat × Nat) : Sha256State :=
  let t1 := (st.h + bsig1 st.e + chFn st.e st.f st.g + kw.1 + kw.2) % m32
  let t2 := (bsig0 st.a + majFn st.a st.b st.c) % m32
  ⟨(t1 + t2) % m32, st.a, st.b, st.c, (st.d + t1) % m32, st.e, st.f, st.g⟩

/-- Extend the 16-word block to the 64-word message schedule.
`acc` holds the words produced so far, most recent first. -/
def sha256Extend : Nat → List Nat → List Nat
  | 0, acc => acc.reverse
  | n + 1, acc =>
    let w := (ssig1 (acc.getD 1 0) + acc.getD 6 0 + ssig0 (acc.getD 14 0) + acc.getD 15 0) % m32
    sha256Extend n (w :: acc)

def sha256Compress (st : Sha256State) (block : List Nat) : Sha256State :=
  let ws := sha256Extend 48 block.reverse
  let r := (sha256K.zip ws).foldl sha256Round st
  ⟨add32 st.a r.a, add32 st.b r.b, add32 st.c r.c, add32 st.d r.d,
   add32 st.e r.e, add32 st.f r.f, add32 st.g r.g, add32 st.h r.h⟩

/-- Big-endian 4-byte groups to 32-bit words. -/
def bytesToWords : List Nat → List Nat
  | b0 :: b1 :: b2 :: b3 :: rest =>
    (b0 * 16777216 + b1 * 65536 + b2 * 256 + b3) :: bytesToWords rest
  | _ => []

/-- Split a word list into 16-word blocks (the padded input is always a
multiple of 16 words). -/
def wordsToBlocks : List Nat → List (List Nat)
  | w0 :: w1 :: w2 :: w3 :: w4 :: w5 :: w6 :: w7 ::
    w8 :: w9 :: w10 :: w11 :: w12 :: w13 :: w14 :: w15 :: rest =>
    [w0, w1, w2, w3, w4, w5, w6, w7, w8, w9, w10, w11, w12, w13, w14, w15] :: wordsToBlocks rest
  | _ => []

/-- 8-byte big-endian encoding of a length in bits. -/
def be64 (n : Nat) : List Nat :=
  [(n >>> 56) &&& 255, (n >>> 48) &&& 255, (n >>> 40) &&& 255, (n >>> 32) &&& 255,
   (n >>> 24) &&& 255, (n >>> 16) &&& 255, (n >>> 8) &&& 255, n &&& 255]

/-- FIPS 180-4 padding: append 0x80, zero fill to 56 mod 64, then the
bit length as 8 big-endian bytes. -/
def sha256Pad (msg : List Nat) : List Nat :=
  let len := msg.length
  let zeros := (64 - ((len + 9) % 64)) % 64
  msg ++ [128] ++ List.replicate zeros 0 ++ be64 (len * 8)

def hexDigit (n : Nat) : Char :=
  if n < 10 then Char.ofNat (48 + n) else Char.ofNat (87 + n)

/-- Lowercase hex rendering of a 32-bit word, 8 digits. -/
def hex32 (w : Nat) : String :=
  String.mk [hexDigit ((w >>> 28) &&& 15), hexDigit ((w >>> 24) &&& 15),
             hexDigit ((w >>> 20) &&& 15), hexDigit ((w >>> 16) &&& 15),
             hexDigit ((w >>> 12) &&& 15), hexDigit ((w >>> 8) &&& 15),
             hexDigit ((w >>> 4) &&& 15), hexDigit (w &&& 15)]

/-- Hex SHA-256 digest of a byte list, as produced by
`crypto.createHash('sha256').update(data).digest('hex')`. -/
def sha256Hex (msg : List Nat) : String :=
  let st := (wordsToBlocks (bytesToWords (sha256Pad msg))).foldl sha256Compress sha256Init
  hex32 st.a ++ hex32 st.b ++ hex32 st.c ++ hex32 st.d ++
  hex32 st.e ++ hex32 st.f ++ hex32 st.g ++ hex32 st.h

/-- UTF-8 encoding of one character (code point to bytes). -/
def utf8Char (c : Char) : List Nat :=
  let n := c.toNat
  if n < 128 then [n]
  else if n < 2048 then [192 + n / 64, 128 + n % 64]
  else if n < 65536 then [224 + n / 4096, 128 + (n / 64) % 64, 128 + n % 64]
  else [240 + n / 262144, 128 + (n / 4096) % 64, 128 + (n / 64) % 64, 128 + n % 64]

/-- UTF-8 byte encoding of a string. -/
def utf8Encode (s : String) : List Nat :=
  s.data.flatMap utf8Char

/-! ## JSON string model (the subset `JSON.stringify` uses in
`generateDocumentHash`)

`JSON.stringify` escapes quote, backslash and control characters in
strings; an `undefined` property (here: a missing `amount`, when
`transaction.amountUSDT` is null so `?.toString()` is undefined) is
omitted from the output, while a `null` value serializes as the literal
`null`.  Braces in string literals are written via `\x7b` and `\x7d`.
-/

def hex4 (n : Nat) : String :=
  String.mk [hexDigit ((n >>> 12) &&& 15), hexDigit ((n >>> 8) &&& 15),
             hexDigit ((n >>> 4) &&& 15), hexDigit (n &&& 15)]

def jsonEscapeChar (c : Char) : String :=
  if c = '"' then "\\\""
  else if c = '\\' then "\\\\"
  else if c = Char.ofNat 8 then "\\b"
  else if c = Char.ofNat 9 then "\\t"
  else if c = Char.ofNat 10 then "\\n"
  else if c = Char.ofNat 12 then "\\f"
  else if c = Char.ofNat 13 then "\\r"
  else if c.toNat < 32 then "\\u" ++ hex4 c.toNat
  else String.singleton c

/-- A JSON string literal: quoted, with `JSON.stringify` escaping. -/
def jsonStr (s : String) : String :=
  "\"" ++ String.join (s.data.map jsonEscapeChar) ++ "\""

/-- A nullable JSON string value (`null` when absent). -/
def jsonStrOrNull : Option String → String
  | some s => jsonStr s
  | none => "null"

/-! ## Executable string helpers

Several core `String` operations (`splitOn`, `startsWith`, `trim`,
`toUpper`, `take`) do not reduce in the kernel, so the JavaScript
string operations used by the service are modelled directly on the
character lists. -/

/-- JS `String#split` with a non-empty separator: `fuel` dominates the
number of consumed characters. -/
def splitOnAuxL (sep : List Char) : Nat -> List Char -> List Char -> List (List Char)
  | 0, cur, s => [cur.reverse ++ s]
  | _ + 1, cur, [] => [cur.reverse]
  | fuel + 1, cur, c :: rest =>
    if sep.isPrefixOf (c :: rest) then
      cur.reverse :: splitOnAuxL sep fuel [] (List.drop sep.length (c :: rest))
    else splitOnAuxL sep fuel (c :: cur) rest

/-- JS `String#split(sep)` for a non-empty `sep` (the only use here is
the fixed storage-URL marker). -/
def strSplitOn (s sep : String) : List String :=
  if sep.data.isEmpty then [s]
  else (splitOnAuxL sep.data s.data.length [] s.data).map String.mk

def strStartsWith (s pre : String) : Bool :=
  pre.data.isPrefixOf s.data

def charToUpper (c : Char) : Char :=
  if 97 <= c.toNat && c.toNat <= 122 then Char.ofNat (c.toNat - 32) else c

/-- JS `String#toUpperCase` (ASCII range, which covers the status and
type strings involved). -/
def strToUpper (s : String) : String :=
  String.mk (s.data.map charToUpper)

def wsChar (c : Char) : Bool :=
  c == ' ' || c == '\t' || c == '\n' || c == '\r'

/-- JS `String#trim` (common whitespace). -/
def strTrim (s : String) : String :=
  String.mk (((s.data.dropWhile wsChar).reverse.dropWhile wsChar).reverse)

/-- JS `String#substring(0, n)`. -/
def strTake (s : String) (n : Nat) : String :=
  String.mk (s.data.take n)

def digitChar (n : Nat) : Char :=
  Char.ofNat (48 + n)

def natToDigits : Nat -> Nat -> List Char
  | 0, _ => []
  | fuel + 1, n =>
    if n < 10 then [digitChar n] else natToDigits fuel (n / 10) ++ [digitChar (n % 10)]

/-- Decimal rendering of a natural number (kernel-reducible). -/
def natToString (n : Nat) : String :=
  String.mk (natToDigits (n + 1) n)

def intToString (i : Int) : String :=
  if i < 0 then "-" ++ natToString i.natAbs else natToString i.natAbs

/-! ## The `Decimal` collaborator (decimal.js)

`decimal.js` is an external collaborator; per the spec it provides
arbitrary-precision decimal arithmetic, modelled as exact rational
arithmetic on a numerator/denominator pair normalized by gcd (the
core `Rat` operations are kernel-irreducible, hence this executable
twin with a `toRat` bridge and proved correctness lemmas).  A value is
well formed when its denominator is non-zero; every operation preserves
this. -/

structure Decimal where
  num : Int
  den : Nat
deriving Repr, DecidableEq

instance (n : Nat) : OfNat Decimal n := ⟨⟨n, 1⟩⟩

/-- Normalize a fraction by the gcd (denominator zero is a sentinel that
only arises from division by zero, which the service guards against). -/
def decNorm (n : Int) (d : Nat) : Decimal :=
  if d = 0 then ⟨0, 0⟩
  else
    let g := Nat.gcd n.natAbs d
    ⟨n / (g : Int), d / g⟩

/-- `Decimal#plus`. -/
def Decimal.plus (a b : Decimal) : Decimal :=
  decNorm (a.num * b.den + b.num * a.den) (a.den * b.den)

/-- `Decimal#times`. -/
def Decimal.times (a b : Decimal) : Decimal :=
  decNorm (a.num * b.num) (a.den * b.den)

/-- `Decimal#div`. -/
def Decimal.divD (a b : Decimal) : Decimal :=
  if b.num < 0 then decNorm (-(a.num * b.den)) (a.den * b.num.natAbs)
  else decNorm (a.num * b.den) (a.den * b.num.natAbs)

/-- `Decimal#gt`. -/
def Decimal.gt (a b : Decimal) : Bool :=
  b.num * a.den < a.num * b.den

/-- The rational a `Decimal` denotes. -/
def Decimal.toRat (a : Decimal) : Rat :=
  (a.num : Rat) / (a.den : Rat)

def Decimal.Wf (a : Decimal) : Prop :=
  a.den ≠ 0

instance (a : Decimal) : Decidable a.Wf :=
  inferInstanceAs (Decidable (a.den ≠ 0))

/-- Least `k ≤ 64` with `den ∣ 10 ^ k`, when one exists. -/
def decExp (den : Nat) : Option Nat :=
  (List.range 65).find? (fun k => (10 ^ k) % den == 0)

def padZerosLeft (k : Nat) (s : String) : String :=
  String.mk (List.replicate (k - s.length) '0') ++ s

def stripTrailingZeros (s : String) : String :=
  String.mk (s.data.reverse.dropWhile (fun c => c == '0')).reverse

/-- Plain decimal rendering of a value with a power-of-ten denominator
(integer part, then a fractional part with trailing zeros stripped), as
`Decimal#toString` produces for such values. -/
def decToString (q : Decimal) : String :=
  match decExp q.den with
  | some k =>
    let sign := if q.num < 0 then "-" else ""
    let m : Nat := q.num.natAbs * ((10 ^ k) / q.den)
    let ip := m / 10 ^ k
    let fp := m % 10 ^ k
    if fp == 0 then sign ++ natToString ip
    else sign ++ natToString ip ++ "." ++ stripTrailingZeros (padZerosLeft k (natToString fp))
  | none => intToString q.num ++ "/" ++ natToString q.den

def pad2 (n : Nat) : String :=
  if n < 10 then "0" ++ natToString n else natToString n

/-- Round to a whole number of cents, half away from zero
(ROUND_HALF_UP, the `decimal.js` default). -/
def centsHalfUp (a : Decimal) : Int :=
  let c : Nat := (200 * a.num.natAbs + a.den) / (2 * a.den)
  if a.num < 0 then -(c : Int) else (c : Int)

/-- `Decimal#toFixed(2)`: exactly two decimal places. -/
def toFixed2 (q : Decimal) : String :=
  let c := centsHalfUp q
  (if c < 0 then "-" else "") ++ natToString (c.natAbs / 100) ++ "." ++ pad2 (c.natAbs % 100)

/-! ## Domain entities

Field layout follows the TypeORM entities as used by
`CertificatesService`: nullable columns are `Option`, monetary and token
columns carried as `Decimal` are `Decimal` values, timestamps appear as their
ISO-8601 rendering (`createdAtIso`, the exact string `toISOString`
yields) plus a numeric creation order (`createdAt`) used for
`ORDER BY createdAt` queries. -/

structure Transaction where
  id : String
  displayCode : String
  userId : Option String
  propertyId : Option String
  status : String
  txType : String
  amountUSDT : Option String
  createdAtIso : String
  createdAt : Nat
  certificatePath : Option String
  metadataTxHash : Option String
  metadataNetwork : Option String
deriving Repr, DecidableEq

structure Investment where
  id : String
  displayCode : String
  userId : String
  propertyId : String
  status : String
  tokensPurchased : Decimal
  amountUSDT : Decimal
  createdAt : Nat
  certificatePath : Option String
deriving Repr, DecidableEq

structure Property where
  id : String
  displayCode : String
  title : String
  city : Option String
  country : Option String
  expectedROI : Option Decimal
  pricePerTokenUSDT : Option Decimal
  totalTokens : Decimal
  legalDocPath : Option String
deriving Repr, DecidableEq

structure User where
  id : String
  fullName : Option String
  email : String
  displayCode : Option String
deriving Repr, DecidableEq

structure Db where
  transactions : List Transaction
  investments : List Investment
  properties : List Property
  users : List User
deriving Repr, DecidableEq

/-! ## Document integrity hasher (`CertificatesService.generateDocumentHash`) -/

/-- The canonical serialization built by `JSON.stringify` inside
`generateDocumentHash`: the fixed key order is id, displayCode, userId,
propertyId, amount, createdAt; `amount` is omitted when
`transaction.amountUSDT` is null (optional chaining yields undefined). -/
def canonicalTxJson (t : Transaction) : String :=
  "\x7b" ++ "\"id\":" ++ jsonStr t.id ++
  ",\"displayCode\":" ++ jsonStr t.displayCode ++
  ",\"userId\":" ++ jsonStrOrNull t.userId ++
  ",\"propertyId\":" ++ jsonStrOrNull t.propertyId ++
  (match t.amountUSDT with
   | some a => ",\"amount\":" ++ jsonStr a
   | none => "") ++
  ",\"createdAt\":" ++ jsonStr t.createdAtIso ++ "\x7d"

/-- `CertificatesService.generateDocumentHash`: hex SHA-256 of the UTF-8
bytes of the canonical serialization of the transaction's stored
fields. -/
def generateDocumentHash (t : Transaction) : String :=
  sha256Hex (utf8Encode (canonicalTxJson t))

/-! ## JavaScript value helpers -/

/-- JS `a || d` for a nullable string `a` and non-null default. -/
def jsOrStr (o : Option String) (d : String) : String :=
  match o with
  | some s => if s == "" then d else s
  | none => d

/-- JS `a || b` where both operands are nullable strings. -/
def jsOrOpt (a b : Option String) : Option String :=
  match a with
  | some s => if s == "" then b else some s
  | none => b

/-- JS template-literal interpolation of a nullable string
(`null` prints as the text "null"). -/
def jsShow : Option String → String
  | some s => s
  | none => "null"

/-! ## Template data (the object literals handed to the templates) -/

structure TxTemplateData where
  certificateId : String
  transactionDisplayCode : String
  transactionDate : String
  transactionStatus : String
  transactionType : String
  investorName : String
  userId : Option String
  propertyName : String
  propertyDisplayCode : String
  tokensPurchased : String
  tokenPrice : String
  totalAmount : String
  blockchainHash : Option String
  blockchainNetwork : Option String
  secpStampUrl : String
  sbpStampUrl : String
  generatedAt : String
  documentHash : String
deriving Repr, DecidableEq

structure TxRow where
  date : String
  displayCode : String
  tokens : String
  amount : String
  status : String
deriving Repr, DecidableEq

structure PortfolioTemplateData where
  certificateId : String
  investorName : String
  userId : String
  propertyName : String
  propertyDisplayCode : String
  propertyLocation : String
  expectedROI : String
  totalTokens : String
  totalInvested : String
  averagePrice : String
  ownershipPercentage : String
  transactions : List TxRow
  secpStampUrl : String
  sbpStampUrl : String
  generatedAt : String
deriving Repr, DecidableEq

/-! ## Orchestrator environment, effects and errors

The environment packages the external collaborators (Supabase object
store, EJS rendering, the PDF backend, the clock and locale
formatting).  Only the diagnostic log events that the spec cares about
(warnings and errors around the investment mirror) are traced; purely
informational logging is out of scope per the spec. -/

structure Env where
  createSignedUrl : String → String
  getCertificatePublicUrl : String → String
  uploadCertificate : String → List Nat → Except String String
  getAssetUrl : String → String
  renderTxHtml : TxTemplateData → String
  renderPortfolioHtml : PortfolioTemplateData → String
  generateFromHtml : String → List Nat
  nowMillis : Nat
  nowDateStr : String
  formatDateTime : String → String
  formatDate : String → String

inductive CertError where
  | notFound (msg : String)
  | uploadError (msg : String)
deriving Repr, DecidableEq

inductive Eff where
  | render
  | upload (path : String)
  | saveTransactionPath (id url : String)
  | saveInvestmentPath (id url : String)
  | log (msg : String)
deriving Repr, DecidableEq

structure GenResult where
  certificatePath : String
  signedUrl : String
deriving Repr, DecidableEq

/-! ## Repository query helpers -/

/-- `findOne({ where: { userId, propertyId }, order: { createdAt: 'DESC' } })`:
the matching row with the greatest `createdAt` (first such row on ties). -/
def mostRecentInvestment (l : List Investment) : Option Investment :=
  l.foldl
    (fun acc i =>
      match acc with
      | none => some i
      | some a => if a.createdAt < i.createdAt then some i else some a)
    none

def latestInvestmentFor (db : Db) (uid pid : String) : Option Investment :=
  mostRecentInvestment (db.investments.filter (fun i => i.userId == uid && i.propertyId == pid))

/-- Stable insertion keeping ascending `createdAt` order. -/
def insertByKey (key : α → Nat) (a : α) : List α → List α
  | [] => [a]
  | b :: bs => if key a ≤ key b then a :: b :: bs else b :: insertByKey key a bs

/-- `ORDER BY createdAt ASC` as a stable sort. -/
def sortByKeyAsc (key : α → Nat) : List α → List α
  | [] => []
  | a :: as => insertByKey key a (sortByKeyAsc key as)

def isHexDigitChar (c : Char) : Bool :=
  (48 ≤ c.toNat && c.toNat ≤ 57) || (97 ≤ c.toNat && c.toNat ≤ 102) ||
  (65 ≤ c.toNat && c.toNat ≤ 70)

/-- The UUID shape test `/^[0-9a-f]{8}-[0-9a-f]{4}-[0-9a-f]{4}-[0-9a-f]{4}-[0-9a-f]{12}$/i`. -/
def isUuidFormat (s : String) : Bool :=
  s.length == 36 &&
  (List.range 36).all (fun i =>
    let c := s.data.getD i ' '
    if i == 8 || i == 13 || i == 18 || i == 23 then c == '-' else isHexDigitChar c)

def setTransactionPath (db : Db) (tid url : String) : Db :=
  { db with
    transactions := db.transactions.map
      (fun t => if t.id == tid then { t with certificatePath := some url } else t) }

def setInvestmentPath (db : Db) (iid url : String) : Db :=
  { db with
    investments := db.investments.map
      (fun i => if i.id == iid then { i with certificatePath := some url } else i) }

/-- Normalization of a stored certificate path before requesting a
signed URL: for an absolute http(s) URL, the segment after the public
certificates prefix when present, otherwise the stored value itself. -/
def extractRelativePath (p : String) : String :=
  if strStartsWith p "http://" || strStartsWith p "https://" then
    let parts := strSplitOn p "/storage/v1/object/public/certificates/"
    if parts.length > 1 then parts.getD 1 p else p
  else p

/-! ## `CertificatesService.generateTransactionCertificate`

The effect trace records renders (`Eff.render` when the PDF backend is
invoked), uploads, repository writes and the diagnostic log messages of
the investment-mirror step. -/

/-- The template data assembled for a transaction certificate
(the object literal at the heart of `generateTransactionCertificate`). -/
def buildTxTemplateData (env : Env) (t : Transaction) (user : User) (property : Property)
    (inv0 : Option Investment) : TxTemplateData :=
  { certificateId := "CERT-" ++ t.displayCode ++ "-" ++ toString env.nowMillis
    transactionDisplayCode := t.displayCode
    transactionDate := env.formatDateTime t.createdAtIso
    transactionStatus := strToUpper t.status
    transactionType := strToUpper t.txType
    investorName := jsOrStr user.fullName user.email
    userId := jsOrOpt user.displayCode t.userId
    propertyName := property.title
    propertyDisplayCode := property.displayCode
    tokensPurchased := jsOrStr (inv0.map (fun i => decToString i.tokensPurchased)) "N/A"
    tokenPrice := jsOrStr (property.pricePerTokenUSDT.map decToString) "0"
    totalAmount := jsOrStr t.amountUSDT "0"
    blockchainHash := t.metadataTxHash
    blockchainNetwork := t.metadataNetwork
    secpStampUrl := env.getAssetUrl "stamps/secp.png"
    sbpStampUrl := env.getAssetUrl "stamps/sbp.png"
    generatedAt := env.nowDateStr
    documentHash := generateDocumentHash t }

/-- The investment-mirror persistence step: resolve an investment
(by the explicitly supplied id first, else the most recent matching
user/property pair), write the url to it, or record the failure. -/
def mirrorToInvestment (db1 : Db) (t : Transaction) (investmentId : Option String)
    (fullPublicUrl : String) : List Eff × Db :=
  match t.userId, t.propertyId with
  | some uid, some pid =>
    let byId := match investmentId with
      | some iid => db1.investments.find? (fun i => i.id == iid)
      | none => none
    let warnEffs := match investmentId with
      | some iid =>
        if (db1.investments.find? (fun i => i.id == iid)).isNone then
          [Eff.log ("Investment " ++ iid ++ " not found, trying to find by user/property")]
        else []
      | none => []
    let inv := match byId with
      | some i => some i
      | none => latestInvestmentFor db1 uid pid
    match inv with
    | some i =>
      (warnEffs ++ [Eff.saveInvestmentPath i.id fullPublicUrl], setInvestmentPath db1 i.id fullPublicUrl)
    | none =>
      (warnEffs ++
        [Eff.log ("Investment not found for userId=" ++ uid ++ " propertyId=" ++ pid ++
          ": certificate was generated but NOT saved to investment table")], db1)
  | _, _ =>
    ([Eff.log "Cannot save to investment: missing userId or propertyId in transaction"], db1)

def generateTransactionCertificate (env : Env) (db : Db) (transactionId : String)
    (investmentId : Option String) : Except CertError GenResult × List Eff × Db :=
  match db.transactions.find? (fun t => t.id == transactionId) with
  | none => (.error (.notFound ("Transaction " ++ transactionId ++ " not found")), [], db)
  | some t =>
    match t.userId.bind (fun uid => db.users.find? (fun u => u.id == uid)) with
    | none => (.error (.notFound "Transaction user not found"), [], db)
    | some user =>
      match t.propertyId.bind (fun pid => db.properties.find? (fun p => p.id == pid)) with
      | none => (.error (.notFound "Transaction property not found"), [], db)
      | some property =>
        match t.certificatePath with
        | some existing =>
          (.ok ⟨existing, env.createSignedUrl (extractRelativePath existing)⟩, [], db)
        | none =>
          let inv0 := match t.userId, t.propertyId with
            | some uid, some pid => latestInvestmentFor db uid pid
            | _, _ => none
          let templateData := buildTxTemplateData env t user property inv0
          let html := env.renderTxHtml templateData
          let pdf := env.generateFromHtml html
          let filePath := "transactions/" ++ jsShow t.userId ++ "/" ++ t.id ++ ".pdf"
          match env.uploadCertificate filePath pdf with
          | .error e =>
            (.error (.uploadError ("Certificate upload failed: " ++ e)),
             [Eff.render, Eff.upload filePath], db)
          | .ok uploadedPath =>
            let fullPublicUrl := env.getCertificatePublicUrl uploadedPath
            let db1 := setTransactionPath db t.id fullPublicUrl
            let mirror := mirrorToInvestment db1 t investmentId fullPublicUrl
            let signedUrl := env.createSignedUrl uploadedPath
            (.ok ⟨fullPublicUrl, signedUrl⟩,
             [Eff.render, Eff.upload filePath, Eff.saveTransactionPath t.id fullPublicUrl] ++
               mirror.1,
             mirror.2)

/-! ## `CertificatesService.generatePortfolioSummary` -/

/-- The per-transaction history row: tokens resolved from an investment
matching the transaction's userId/propertyId pair, else "0". -/
def buildTxRow (env : Env) (investments : List Investment) (txn : Transaction) : TxRow :=
  let related := investments.find?
    (fun inv => txn.userId == some inv.userId && txn.propertyId == some inv.propertyId)
  { date := env.formatDate txn.createdAtIso
    displayCode := txn.displayCode
    tokens := jsOrStr (related.map (fun i => decToString i.tokensPurchased)) "0"
    amount := jsOrStr txn.amountUSDT "0"
    status := strToUpper txn.status }

/-- Confirmed investments of the user in the property, ascending by
creation time (`ORDER BY createdAt ASC`). -/
def confirmedInvestments (db : Db) (userId pid : String) : List Investment :=
  sortByKeyAsc (fun i => i.createdAt)
    (db.investments.filter
      (fun i => i.userId == userId && i.propertyId == pid && i.status == "confirmed"))

/-- Completed investment-type transactions of the user in the property,
ascending by creation time. -/
def completedTransactions (db : Db) (userId pid : String) : List Transaction :=
  sortByKeyAsc (fun t => t.createdAt)
    (db.transactions.filter
      (fun t => t.userId == some userId && t.propertyId == some pid &&
        t.txType == "investment" && t.status == "completed"))

def sumTokens (investments : List Investment) : Decimal :=
  investments.foldl (fun s i => s.plus i.tokensPurchased) 0

def sumInvested (investments : List Investment) : Decimal :=
  investments.foldl (fun s i => s.plus i.amountUSDT) 0

/-- The template data assembled for a portfolio summary, including the
aggregate arithmetic (`totalTokens`, `totalInvested`, `averagePrice`,
`ownershipPercentage`). -/
def buildPortfolioTemplateData (env : Env) (user : User) (property : Property) (userId : String)
    (investments : List Investment) (txns : List Transaction) : PortfolioTemplateData :=
  let totalTokens := sumTokens investments
  let totalInvested := sumInvested investments
  let averagePrice := if totalTokens.gt 0 then totalInvested.divD totalTokens else 0
  let ownershipPercentage :=
    if property.totalTokens.gt 0 then (totalTokens.divD property.totalTokens).times 100 else 0
  { certificateId := "PORT-" ++ property.displayCode ++ "-" ++ toString env.nowMillis
    investorName := jsOrStr user.fullName user.email
    userId := jsOrStr user.displayCode userId
    propertyName := property.title
    propertyDisplayCode := property.displayCode
    propertyLocation :=
      jsOrStr (some (strTrim (jsOrStr property.city "" ++ ", " ++ jsOrStr property.country ""))) "N/A"
    expectedROI := jsOrStr (property.expectedROI.map decToString) "0"
    totalTokens := decToString totalTokens
    totalInvested := decToString totalInvested
    averagePrice := toFixed2 averagePrice
    ownershipPercentage := toFixed2 ownershipPercentage
    transactions := txns.map (buildTxRow env investments)
    secpStampUrl := env.getAssetUrl "stamps/secp.png"
    sbpStampUrl := env.getAssetUrl "stamps/sbp.png"
    generatedAt := env.nowDateStr }

def generatePortfolioSummary (env : Env) (db : Db) (userId propertyId : String) :
    Except CertError GenResult × List Eff × Db :=
  match db.users.find? (fun u => u.id == userId) with
  | none => (.error (.notFound ("User " ++ userId ++ " not found")), [], db)
  | some user =>
    let propQ :=
      if isUuidFormat propertyId then db.properties.find? (fun p => p.id == propertyId)
      else db.properties.find? (fun p => p.displayCode == propertyId)
    match propQ with
    | none => (.error (.notFound ("Property " ++ propertyId ++ " not found")), [], db)
    | some property =>
      let investments := confirmedInvestments db userId property.id
      if investments.isEmpty then
        (.error (.notFound "No investments found for this property"), [], db)
      else
        let txns := completedTransactions db userId property.id
        let templateData := buildPortfolioTemplateData env user property userId investments txns
        let html := env.renderPortfolioHtml templateData
        let pdf := env.generateFromHtml html
        let filePath := "portfolio/" ++ userId ++ "/" ++ property.id ++ ".pdf"
        match env.uploadCertificate filePath pdf with
        | .error e => (.error (.uploadError e), [Eff.render, Eff.upload filePath], db)
        | .ok uploadedPath =>
          let fullPublicUrl := env.getCertificatePublicUrl uploadedPath
          let signedUrl := env.createSignedUrl uploadedPath
          (.ok ⟨fullPublicUrl, signedUrl⟩, [Eff.render, Eff.upload filePath], db)

/-! ## `PdfService` (vector renderer, PDFKit)

The drawing calls are embedded as an explicit op list: coarse
`contentSection` ops for the primary-content drawing, `addPage` for
`doc.addPage()`, `image x y w h` for `doc.image(..., x, y, ...)` and
`footerText` for the footer lines.  A4 page metrics are the PDFKit
values in points. -/

def a4Width : Decimal := ⟨59528, 100⟩

def a4Height : Decimal := ⟨84189, 100⟩

def Decimal.sub (a b : Decimal) : Decimal :=
  decNorm (a.num * b.den - b.num * a.den) (a.den * b.den)

inductive DrawOp where
  | contentSection (name : String)
  | addPage
  | image (x y w h : Decimal)
  | footerText (s : String)
deriving Repr, DecidableEq

/-- The interface `CertificateData` of `pdf.service.ts`. -/
structure CertificateData where
  certificateId : String
  transactionDisplayCode : String
  transactionDate : String
  transactionStatus : String
  transactionType : String
  investorName : String
  userId : Option String
  propertyName : String
  propertyDisplayCode : String
  tokensPurchased : String
  tokenPrice : String
  totalAmount : String
  blockchainHash : Option String
  blockchainNetwork : Option String
  secpStampUrl : Option String
  sbpStampUrl : Option String
  generatedAt : String
  documentHash : String
deriving Repr, DecidableEq

/-- The interface `PortfolioData` of `pdf.service.ts`. -/
structure PortfolioData where
  certificateId : String
  investorName : String
  userId : String
  propertyName : String
  propertyDisplayCode : String
  propertyLocation : String
  expectedROI : String
  totalTokens : String
  totalInvested : String
  averagePrice : String
  ownershipPercentage : String
  transactions : List TxRow
  secpStampUrl : Option String
  sbpStampUrl : Option String
  generatedAt : String
deriving Repr, DecidableEq

/-- JS truthiness of an optional string field. -/
def jsTruthy : Option String → Bool
  | some s => !(s == "")
  | none => false

structure HttpResp where
  status : Nat
  location : Option String
  body : List Nat
deriving Repr, DecidableEq

/-- `PdfService.downloadFile`: follow 301/302 redirects recursively,
reject any other non-200 status, return the body on 200.  The
TypeScript recursion carries no explicit bound; the `fuel` argument
makes the embedding total (exhausted fuel models resource
exhaustion). -/
def downloadFile (world : String → HttpResp) : Nat → String → Except String (List Nat)
  | 0, _ => .error "redirect recursion exhausted resources"
  | fuel + 1, url =>
    let r := world url
    if r.status == 301 || r.status == 302 then
      downloadFile world fuel (r.location.getD url)
    else if r.status == 200 then .ok r.body
    else .error ("Failed to download file: " ++ natToString r.status)

/-- The stamps page: vertical position from the page's total height,
120pt square stamps side by side with a 40pt gap; each stamp drawn only
when its URL is truthy and its download succeeds, a warning recorded on
a failed download.  Returns the drawn ops and the warnings. -/
def stampsSection (fetch : String → Except String (List Nat))
    (secpUrl sbpUrl : Option String) : List DrawOp × List String :=
  let y := (a4Height.divD 2).sub 100
  let x0 := (a4Width.divD 2).sub 120
  let secp : List DrawOp × List String × Decimal :=
    if jsTruthy secpUrl then
      match fetch (secpUrl.getD "") with
      | .ok _ => ([DrawOp.image x0 y 120 120], [], (x0.plus 120).plus 40)
      | .error _ => ([], ["Failed to load SECP stamp"], x0)
    else ([], [], x0)
  let sbp : List DrawOp × List String :=
    if jsTruthy sbpUrl then
      match fetch (sbpUrl.getD "") with
      | .ok _ => ([DrawOp.image secp.2.2 y 120 120], [])
      | .error _ => ([], ["Failed to load SBP stamp"])
    else ([], [])
  (secp.1 ++ sbp.1, secp.2.1 ++ sbp.2)

/-- `PdfService.generateTransactionCertificate`: primary content, an
unconditional `addPage`, the stamps, then the footer. -/
def pdfTransactionOps (fetch : String → Except String (List Nat)) (d : CertificateData) :
    List DrawOp × List String :=
  let contentOps :=
    [DrawOp.contentSection "header", DrawOp.contentSection "transactionInformation",
     DrawOp.contentSection "investorInformation", DrawOp.contentSection "investmentDetails"] ++
    (if jsTruthy d.blockchainHash then [DrawOp.contentSection "blockchainVerification"] else [])
  let st := stampsSection fetch d.secpStampUrl d.sbpStampUrl
  let footer :=
    [DrawOp.footerText ("Certificate ID: " ++ d.certificateId),
     DrawOp.footerText ("Generated: " ++ d.generatedAt),
     DrawOp.footerText ("Document Hash: " ++
       (if d.documentHash == "" then "N/A" else strTake d.documentHash 16 ++ "...")),
     DrawOp.footerText "Verification: Valid"]
  (contentOps ++ [DrawOp.addPage] ++ st.1 ++ footer, st.2)

/-- `PdfService.generatePortfolioSummary`: primary content (the
transaction-history table only when rows exist), an unconditional
`addPage`, the stamps, then the footer. -/
def pdfPortfolioOps (fetch : String → Except String (List Nat)) (d : PortfolioData) :
    List DrawOp × List String :=
  let contentOps :=
    [DrawOp.contentSection "header", DrawOp.contentSection "investorInformation",
     DrawOp.contentSection "propertyInformation", DrawOp.contentSection "portfolioSummary"] ++
    (if d.transactions.isEmpty then [] else [DrawOp.contentSection "transactionHistory"])
  let st := stampsSection fetch d.secpStampUrl d.sbpStampUrl
  let footer :=
    [DrawOp.footerText ("Certificate ID: " ++ d.certificateId),
     DrawOp.footerText ("Generated: " ++ d.generatedAt),
     DrawOp.footerText ("Property: " ++ d.propertyDisplayCode),
     DrawOp.footerText "Verification: Valid"]
  (contentOps ++ [DrawOp.addPage] ++ st.1 ++ footer, st.2)

/-! ## Rendering strategy (fallback chain) -/

/-- Modelled from the spec: `PdfService.generateFromHtml` and the
Typesetting-to-Browser fallback chain are invoked by
`CertificatesService` and described in `docs/LATEX_CERTIFICATE_SETUP.md`,
but their implementation is missing under `src/`.  Per the spec, the
Browser Rendering Renderer is an always-available fallback producing a
complete, self-contained document: modelled as a document header
followed by the rendered payload (non-empty by construction). -/
def browserRenderBytes (markup : String) : List Nat :=
  [37, 80, 68, 70] ++ utf8Encode markup

/-- Modelled from the spec: the rendering strategy attempts the
Typesetting Renderer first when it is configured (`some compileFn`); on
any compiler invocation failure it records the failure and falls back
to the Browser Rendering Renderer.  Returns the document bytes and the
recorded failure messages. -/
def renderWithFallback (typeset : Option (String → Except String (List Nat)))
    (markup : String) : List Nat × List String :=
  match typeset with
  | none => (browserRenderBytes markup, [])
  | some compileFn =>
    match compileFn markup with
    | .ok bytes => (bytes, [])
    | .error e =>
      (browserRenderBytes markup,
       ["Typesetting renderer failed: " ++ e ++ ", falling back to browser renderer"])

/-! ## Concrete fixtures used by the witnesses -/

def envW : Env :=
  { createSignedUrl := fun p => "signed:" ++ p
    getCertificatePublicUrl := fun p =>
      "https://store.example/storage/v1/object/public/certificates/" ++ p
    uploadCertificate := fun p _ => .ok p
    getAssetUrl := fun p => "https://assets.example/" ++ p
    renderTxHtml := fun _ => "tx-html"
    renderPortfolioHtml := fun _ => "portfolio-html"
    generateFromHtml := fun h => utf8Encode h
    nowMillis := 1700000000000
    nowDateStr := "January 15, 2024"
    formatDateTime := fun s => s
    formatDate := fun s => s }

def sampleTx (amount : String) : Transaction :=
  { id := "11111111-1111-1111-1111-111111111111"
    displayCode := "TXN-001"
    userId := some "u-1"
    propertyId := some "p-1"
    status := "completed"
    txType := "investment"
    amountUSDT := some amount
    createdAtIso := "2024-01-15T10:30:00.000Z"
    createdAt := 10
    certificatePath := none
    metadataTxHash := none
    metadataNetwork := none }

/-- Same stored hash fields as `sampleTx "1000.00"`, different status,
creation order and certificate path. -/
def sampleTxPending : Transaction :=
  { sampleTx "1000.00" with
    status := "pending"
    createdAt := 99
    certificatePath := some "transactions/u-1/old.pdf"
    metadataTxHash := some "0xabc" }

def storedUrlW : String :=
  "https://store.example/storage/v1/object/public/certificates/transactions/u-1/t-1.pdf"

def txWithPathW : Transaction :=
  { sampleTx "1000.00" with id := "t-1", certificatePath := some storedUrlW }

def userW : User :=
  { id := "u-1", fullName := some "Jane Investor", email := "jane@example.com"
    displayCode := some "USR-001" }

def propertyW : Property :=
  { id := "p-1", displayCode := "PROP-001", title := "Harbor Tower"
    city := some "Karachi", country := some "Pakistan"
    expectedROI := some ⟨25, 2⟩
    pricePerTokenUSDT := some 25
    totalTokens := 1000
    legalDocPath := none }

def dbExistingW : Db :=
  { transactions := [txWithPathW], investments := [], properties := [propertyW]
    users := [userW] }

def invW1 : Investment :=
  { id := "i-1", displayCode := "INV-001", userId := "u-1", propertyId := "p-1"
    status := "confirmed", tokensPurchased := 10, amountUSDT := 100
    createdAt := 1, certificatePath := none }

def invW2 : Investment :=
  { id := "i-2", displayCode := "INV-002", userId := "u-1", propertyId := "p-1"
    status := "confirmed", tokensPurchased := 30, amountUSDT := 250
    createdAt := 2, certificatePath := none }

def invsW : List Investment := [invW1, invW2]

def propertyZeroW : Property :=
  { propertyW with totalTokens := 0 }

def dbNoMirrorW : Db :=
  { transactions := [sampleTx "1000.00"], investments := [], properties := [propertyW]
    users := [userW] }

/-- Whether a stamp URL is present/truthy and its download succeeds. -/
def stampDrawn (fetch : String → Except String (List Nat)) (o : Option String) : Bool :=
  jsTruthy o && (fetch (o.getD "")).isOk

/-- C7 witness: a concrete 302-redirected then failing (404) stamp URL:
the redirect is followed, the 404 is a failure, the SECP stamp is
omitted with a warning while the document and the SBP stamp survive. -/
def worldW : String → HttpResp := fun url =>
  if url == "http://assets/secp" then ⟨302, some "http://cdn/secp", []⟩
  else if url == "http://cdn/secp" then ⟨404, none, []⟩
  else if url == "http://assets/sbp" then ⟨302, some "http://cdn/sbp", []⟩
  else if url == "http://cdn/sbp" then ⟨200, none, [7, 7]⟩
  else ⟨500, none, []⟩

def fetchW : String → Except String (List Nat) := fun url => downloadFile worldW 8 url

def txnForRowW : Transaction := sampleTx "1000.00"

def txnNoMatchW : Transaction :=
  { sampleTx "1000.00" with userId := some "u-2" }

def certDataW : CertificateData :=
  { certificateId := "CERT-TXN-001", transactionDisplayCode := "TXN-001"
    transactionDate := "January 15, 2024", transactionStatus := "COMPLETED"
    transactionType := "INVESTMENT", investorName := "Jane Investor"
    userId := some "USR-001", propertyName := "Harbor Tower"
    propertyDisplayCode := "PROP-001", tokensPurchased := "10", tokenPrice := "25"
    totalAmount := "1000.00", blockchainHash := none, blockchainNetwork := none
    secpStampUrl := some "s", sbpStampUrl := some "b"
    generatedAt := "January 15, 2024", documentHash := "abc123" }

def portDataW : PortfolioData :=
  { certificateId := "PORT-PROP-001", investorName := "Jane Investor"
    userId := "USR-001", propertyName := "Harbor Tower"
    propertyDisplayCode := "PROP-001", propertyLocation := "Karachi, Pakistan"
    expectedROI := "12.5", totalTokens := "40", totalInvested := "350"
    averagePrice := "8.75", ownershipPercentage := "4.00", transactions := []
    secpStampUrl := some "s", sbpStampUrl := some "b"
    generatedAt := "January 15, 2024" }

def dbPortfolioW : Db :=
  { transactions := []
    investments := [{ invW1 with certificatePath := some storedUrlW }, invW2]
    properties := [propertyW], users := [userW] }

/-- FIPS 180-4 test vector: digest of the empty message. -/
theorem sha256Hex_empty :
    sha256Hex [] = "e3b0c44298fc1c149afbf4c8996fb92427ae41e4649b934ca495991b7852b855" := by
  decide

/-- FIPS 180-4 test vector: digest of "abc". -/
theorem sha256Hex_abc :
    sha256Hex (utf8Encode "abc") =
      "ba7816bf8f01cfea414140de5dae2223b00361a396177a9cb410ff61f20015ad" := by
  decide

/-! ## C1 -/

/-- C1: for a transaction whose stored certificatePath is non-null (and
whose user and property relations resolve), `generateTransactionCertificate`
performs no render, no upload and no repository write — the effect trace
is empty and the database is unchanged — and returns the stored path
itself together with a signed URL built from the normalized relative
path: the segment after the public certificates prefix when the stored
value is an absolute http(s) URL containing it, otherwise the stored
value itself. -/
theorem claim1_existing_path_skips_pipeline (env : Env) (db : Db) (tid : String)
    (iid : Option String) (t : Transaction) (user : User) (property : Property) (p : String)
    (ht : db.transactions.find? (fun x => x.id == tid) = some t)
    (hu : t.userId.bind (fun uid => db.users.find? (fun u => u.id == uid)) = some user)
    (hp : t.propertyId.bind (fun pid => db.properties.find? (fun pr => pr.id == pid)) =
      some property)
    (hc : t.certificatePath = some p) :
    generateTransactionCertificate env db tid iid =
      (.ok ⟨p, env.createSignedUrl (extractRelativePath p)⟩, ([] : List Eff), db) ∧
    ((strStartsWith p "http://" || strStartsWith p "https://") = true →
      1 < (strSplitOn p "/storage/v1/object/public/certificates/").length →
      extractRelativePath p =
        (strSplitOn p "/storage/v1/object/public/certificates/").getD 1 p) ∧
    ((strStartsWith p "http://" || strStartsWith p "https://") = true →
      ¬1 < (strSplitOn p "/storage/v1/object/public/certificates/").length →
      extractRelativePath p = p) ∧
    ((strStartsWith p "http://" || strStartsWith p "https://") = false →
      extractRelativePath p = p) := by
  refine ⟨?_, ?_, ?_, ?_⟩
  · simp only [generateTransactionCertificate, ht, hu, hp, hc]
  · intro hhttp hlen
    unfold extractRelativePath
    rw [hhttp]
    simp [hlen]
  · intro hhttp hlen
    unfold extractRelativePath
    rw [hhttp]
    simp [hlen]
  · intro hhttp
    unfold extractRelativePath
    rw [hhttp]
    simp

/-- C1 witness: on a concrete database whose transaction already stores
a full public URL, the call returns the stored URL plus a signed URL
from the extracted relative path, with an empty effect trace. -/
theorem claim1_witness :
    generateTransactionCertificate envW dbExistingW "t-1" none =
      (.ok ⟨storedUrlW, "signed:transactions/u-1/t-1.pdf"⟩, ([] : List Eff), dbExistingW) := by
  have h := claim1_existing_path_skips_pipeline envW dbExistingW "t-1" none txWithPathW userW
    propertyW storedUrlW (by decide) (by decide) (by decide) rfl
  rw [h.1]
  rfl

/-! ## Correctness of the `Decimal` model with respect to ℚ -/

theorem decNorm_eq (n : Int) (d : Nat) (hd : d ≠ 0) :
    decNorm n d = ⟨n / (Nat.gcd n.natAbs d : Int), d / Nat.gcd n.natAbs d⟩ := by
  simp only [decNorm, if_neg hd]

theorem decNorm_wf (n : Int) (d : Nat) (hd : d ≠ 0) : (decNorm n d).Wf := by
  rw [decNorm_eq n d hd]
  have hg0 : Nat.gcd n.natAbs d ≠ 0 := fun h => hd (Nat.eq_zero_of_gcd_eq_zero_right h)
  have hpos := Nat.div_pos (Nat.le_of_dvd (Nat.pos_of_ne_zero hd) (Nat.gcd_dvd_right n.natAbs d))
    (Nat.pos_of_ne_zero hg0)
  show d / Nat.gcd n.natAbs d ≠ 0
  omega

theorem cast_div_div_eq (p : Int) (q g : Nat) (hg : g ≠ 0) (hp : (g : Int) ∣ p)
    (hq : g ∣ q) :
    ((p / (g : Int) : Int) : ℚ) / ((q / g : Nat) : ℚ) = (p : ℚ) / (q : ℚ) := by
  obtain ⟨m, rfl⟩ := hp
  obtain ⟨d2, rfl⟩ := hq
  rw [Int.mul_ediv_cancel_left m (by exact_mod_cast hg),
    Nat.mul_div_cancel_left d2 (Nat.pos_of_ne_zero hg)]
  push_cast
  exact (mul_div_mul_left (m : ℚ) (d2 : ℚ) (by exact_mod_cast hg)).symm

theorem decNorm_toRat (n : Int) (d : Nat) (hd : d ≠ 0) :
    (decNorm n d).toRat = (n : ℚ) / (d : ℚ) := by
  rw [decNorm_eq n d hd]
  have hgn : (Nat.gcd n.natAbs d : Int) ∣ n :=
    Int.dvd_natAbs.mp (Int.natCast_dvd_natCast.mpr (Nat.gcd_dvd_left n.natAbs d))
  have hgd : Nat.gcd n.natAbs d ∣ d := Nat.gcd_dvd_right n.natAbs d
  have hg0 : Nat.gcd n.natAbs d ≠ 0 := fun h => hd (Nat.eq_zero_of_gcd_eq_zero_right h)
  exact cast_div_div_eq n d (Nat.gcd n.natAbs d) hg0 hgn hgd

theorem decimal_zero_toRat : (0 : Decimal).toRat = 0 := by
  show ((0 : Int) : ℚ) / ((1 : Nat) : ℚ) = 0
  norm_num

theorem decimal_zero_wf : (0 : Decimal).Wf := by
  show (1 : Nat) ≠ 0
  omega

theorem Decimal.plus_wf (a b : Decimal) (ha : a.Wf) (hb : b.Wf) : (a.plus b).Wf :=
  decNorm_wf _ _ (Nat.mul_ne_zero ha hb)

theorem Decimal.plus_toRat (a b : Decimal) (ha : a.Wf) (hb : b.Wf) :
    (a.plus b).toRat = a.toRat + b.toRat := by
  unfold Decimal.plus
  rw [decNorm_toRat _ _ (Nat.mul_ne_zero ha hb)]
  show _ = (a.num : ℚ) / (a.den : ℚ) + (b.num : ℚ) / (b.den : ℚ)
  have ha2 : ((a.den : Nat) : ℚ) ≠ 0 := Nat.cast_ne_zero.mpr ha
  have hb2 : ((b.den : Nat) : ℚ) ≠ 0 := Nat.cast_ne_zero.mpr hb
  push_cast
  field_simp

theorem Decimal.times_toRat (a b : Decimal) (ha : a.Wf) (hb : b.Wf) :
    (a.times b).toRat = a.toRat * b.toRat := by
  unfold Decimal.times
  rw [decNorm_toRat _ _ (Nat.mul_ne_zero ha hb)]
  show _ = (a.num : ℚ) / (a.den : ℚ) * ((b.num : ℚ) / (b.den : ℚ))
  have ha2 : ((a.den : Nat) : ℚ) ≠ 0 := Nat.cast_ne_zero.mpr ha
  have hb2 : ((b.den : Nat) : ℚ) ≠ 0 := Nat.cast_ne_zero.mpr hb
  push_cast
  field_simp

theorem Decimal.divD_toRat (a b : Decimal) (ha : a.Wf) (hb : b.Wf) :
    (a.divD b).toRat = a.toRat / b.toRat := by
  unfold Decimal.divD
  by_cases h0 : b.num = 0
  · have hbr : b.toRat = 0 := by
      show ((b.num : Int) : ℚ) / _ = 0
      rw [h0]
      norm_num
    rw [hbr, div_zero, h0]
    simp [decNorm, Decimal.toRat]
  · have hnat : b.num.natAbs ≠ 0 := fun h => h0 (Int.natAbs_eq_zero.mp h)
    have hden : a.den * b.num.natAbs ≠ 0 := Nat.mul_ne_zero ha hnat
    have ha2 : ((a.den : Nat) : ℚ) ≠ 0 := Nat.cast_ne_zero.mpr ha
    have hb2 : ((b.den : Nat) : ℚ) ≠ 0 := Nat.cast_ne_zero.mpr hb
    have hbq : ((b.num : Int) : ℚ) ≠ 0 := by exact_mod_cast h0
    rcases lt_trichotomy b.num 0 with hneg | hz | hpos
    · rw [if_pos hneg, decNorm_toRat _ _ hden]
      show _ = (a.num : ℚ) / (a.den : ℚ) / ((b.num : ℚ) / (b.den : ℚ))
      have habs : ((b.num.natAbs : Nat) : ℚ) = -(b.num : ℚ) := by
        rw [Int.cast_natAbs, abs_of_neg hneg]
        push_cast
        ring
      push_cast [habs]
      field_simp
    · exact absurd hz h0
    · rw [if_neg (not_lt.mpr (le_of_lt hpos)), decNorm_toRat _ _ hden]
      show _ = (a.num : ℚ) / (a.den : ℚ) / ((b.num : ℚ) / (b.den : ℚ))
      have habs : ((b.num.natAbs : Nat) : ℚ) = (b.num : ℚ) := by
        rw [Int.cast_natAbs, abs_of_pos hpos]
      push_cast [habs]
      field_simp

theorem Decimal.gt_toRat (a b : Decimal) (ha : a.Wf) (hb : b.Wf) :
    a.gt b = true ↔ b.toRat < a.toRat := by
  unfold Decimal.gt
  rw [decide_eq_true_iff]
  show _ ↔ (b.num : ℚ) / (b.den : ℚ) < (a.num : ℚ) / (a.den : ℚ)
  rw [div_lt_div_iff₀ (by exact_mod_cast Nat.pos_of_ne_zero hb)
    (by exact_mod_cast Nat.pos_of_ne_zero ha)]
  constructor <;> intro h <;> exact_mod_cast h

theorem foldl_plus_wf (l : List Decimal) (init : Decimal) (h0 : init.Wf)
    (hl : ∀ x ∈ l, x.Wf) : (l.foldl Decimal.plus init).Wf := by
  induction l generalizing init with
  | nil => exact h0
  | cons x xs ih =>
    exact ih (init.plus x) (Decimal.plus_wf init x h0 (hl x (by simp)))
      (fun y hy => hl y (by simp [hy]))

theorem foldl_plus_toRat (l : List Decimal) (init : Decimal) (h0 : init.Wf)
    (hl : ∀ x ∈ l, x.Wf) :
    (l.foldl Decimal.plus init).toRat = init.toRat + (l.map Decimal.toRat).sum := by
  induction l generalizing init with
  | nil => simp
  | cons x xs ih =>
    simp only [List.foldl_cons, List.map_cons, List.sum_cons]
    rw [ih (init.plus x) (Decimal.plus_wf init x h0 (hl x (by simp)))
      (fun y hy => hl y (by simp [hy])),
      Decimal.plus_toRat init x h0 (hl x (by simp))]
    ring

theorem sumBy_wf (f : Investment → Decimal) (invs : List Investment)
    (h : ∀ i ∈ invs, (f i).Wf) :
    (invs.foldl (fun s i => Decimal.plus s (f i)) 0).Wf := by
  have hfold : invs.foldl (fun s i => Decimal.plus s (f i)) 0 =
      (invs.map f).foldl Decimal.plus 0 :=
    (List.foldl_map f Decimal.plus invs 0).symm
  rw [hfold]
  exact foldl_plus_wf _ _ decimal_zero_wf (by
    intro x hx
    obtain ⟨i, hi, rfl⟩ := List.mem_map.mp hx
    exact h i hi)

theorem sumBy_toRat (f : Investment → Decimal) (invs : List Investment)
    (h : ∀ i ∈ invs, (f i).Wf) :
    (invs.foldl (fun s i => Decimal.plus s (f i)) 0).toRat =
      (invs.map (fun i => (f i).toRat)).sum := by
  have hfold : invs.foldl (fun s i => Decimal.plus s (f i)) 0 =
      (invs.map f).foldl Decimal.plus 0 :=
    (List.foldl_map f Decimal.plus invs 0).symm
  rw [hfold]
  rw [foldl_plus_toRat _ _ decimal_zero_wf (by
    intro x hx
    obtain ⟨i, hi, rfl⟩ := List.mem_map.mp hx
    exact h i hi)]
  rw [decimal_zero_toRat, List.map_map]
  simp [Function.comp_def]

theorem sumTokens_wf (invs : List Investment) (h : ∀ i ∈ invs, i.tokensPurchased.Wf) :
    (sumTokens invs).Wf :=
  sumBy_wf (fun i => i.tokensPurchased) invs h

theorem sumTokens_toRat (invs : List Investment) (h : ∀ i ∈ invs, i.tokensPurchased.Wf) :
    (sumTokens invs).toRat = (invs.map (fun i => i.tokensPurchased.toRat)).sum :=
  sumBy_toRat (fun i => i.tokensPurchased) invs h

theorem sumInvested_wf (invs : List Investment) (h : ∀ i ∈ invs, i.amountUSDT.Wf) :
    (sumInvested invs).Wf :=
  sumBy_wf (fun i => i.amountUSDT) invs h

theorem sumInvested_toRat (invs : List Investment) (h : ∀ i ∈ invs, i.amountUSDT.Wf) :
    (sumInvested invs).toRat = (invs.map (fun i => i.amountUSDT.toRat)).sum :=
  sumBy_toRat (fun i => i.amountUSDT) invs h

/-! ## C2 -/

set_option maxRecDepth 10000

/-- C2: `generateDocumentHash` is exactly the hex SHA-256 digest of the
UTF-8 bytes of the canonical JSON serialization in the fixed key order
id, displayCode, userId, propertyId, amount, createdAt; it depends only
on those six stored fields (hence is deterministic and independent of
any rendering output, which is not among them); and changing the amount
changes the digest on a concrete record. -/
theorem claim2_document_hash :
    (∀ t : Transaction, generateDocumentHash t = sha256Hex (utf8Encode (canonicalTxJson t))) ∧
    (∀ t1 t2 : Transaction, t1.id = t2.id → t1.displayCode = t2.displayCode →
      t1.userId = t2.userId → t1.propertyId = t2.propertyId →
      t1.amountUSDT = t2.amountUSDT → t1.createdAtIso = t2.createdAtIso →
      generateDocumentHash t1 = generateDocumentHash t2) ∧
    generateDocumentHash (sampleTx "1000.00") ≠ generateDocumentHash (sampleTx "2000.00") := by
  refine ⟨fun _ => rfl, ?_, by decide⟩
  intro t1 t2 h1 h2 h3 h4 h5 h6
  unfold generateDocumentHash canonicalTxJson
  rw [h1, h2, h3, h4, h5, h6]

/-- C2 witness: two records sharing the six hashed fields but differing
in status, creation order, stored path and metadata hash to the same
digest. -/
theorem claim2_witness :
    generateDocumentHash sampleTxPending = generateDocumentHash (sampleTx "1000.00") :=
  claim2_document_hash.2.1 sampleTxPending (sampleTx "1000.00") rfl rfl rfl rfl rfl rfl

/-! ## C3 -/

/-- C3: in the portfolio assembly, the aggregates are the exact sums of
the confirmed investments (stated via the `toRat` denotation), the
average price is the exact quotient totalInvested / totalTokens when
totalTokens is positive — the presentation model receives that quotient
rendered to two decimal places — and it is zero (rendered "0.00") when
totalTokens is zero; the assembler is a total function, so no division
error can be raised. -/
theorem claim3_average_price (env : Env) (user : User) (property : Property) (userId : String)
    (invs : List Investment) (txns : List Transaction)
    (hwf : ∀ i ∈ invs, i.tokensPurchased.Wf ∧ i.amountUSDT.Wf) :
    ((sumTokens invs).toRat = (invs.map (fun i => i.tokensPurchased.toRat)).sum) ∧
    ((sumInvested invs).toRat = (invs.map (fun i => i.amountUSDT.toRat)).sum) ∧
    (0 < (sumTokens invs).toRat →
      (buildPortfolioTemplateData env user property userId invs txns).averagePrice =
        toFixed2 ((sumInvested invs).divD (sumTokens invs)) ∧
      ((sumInvested invs).divD (sumTokens invs)).toRat =
        (sumInvested invs).toRat / (sumTokens invs).toRat) ∧
    ((sumTokens invs).toRat = 0 →
      (buildPortfolioTemplateData env user property userId invs txns).averagePrice = "0.00") := by
  have hwt : ∀ i ∈ invs, i.tokensPurchased.Wf := fun i hi => (hwf i hi).1
  have hwa : ∀ i ∈ invs, i.amountUSDT.Wf := fun i hi => (hwf i hi).2
  have hswf : (sumTokens invs).Wf := sumTokens_wf invs hwt
  have hiwf : (sumInvested invs).Wf := sumInvested_wf invs hwa
  refine ⟨sumTokens_toRat invs hwt, sumInvested_toRat invs hwa, ?_, ?_⟩
  · intro hpos
    have hg : (sumTokens invs).gt 0 = true := by
      rw [Decimal.gt_toRat (sumTokens invs) 0 hswf decimal_zero_wf, decimal_zero_toRat]
      exact hpos
    constructor
    · simp only [buildPortfolioTemplateData, hg, if_true]
    · exact Decimal.divD_toRat (sumInvested invs) (sumTokens invs) hiwf hswf
  · intro hzero
    have hg : (sumTokens invs).gt 0 = false := by
      cases hgt : (sumTokens invs).gt 0
      · rfl
      · exfalso
        have := (Decimal.gt_toRat (sumTokens invs) 0 hswf decimal_zero_wf).mp hgt
        rw [decimal_zero_toRat, hzero] at this
        exact lt_irrefl 0 this
    simp only [buildPortfolioTemplateData, hg, Bool.false_eq_true, if_false]
    decide

/-- C3 witness: 10 + 30 tokens for 100 + 250 USDT average to
350 / 40 = 8.75, rendered "8.75". -/
theorem claim3_witness :
    (buildPortfolioTemplateData envW userW propertyW "u-1" invsW []).averagePrice = "8.75" := by
  have hsum : sumTokens invsW = ⟨40, 1⟩ := by decide
  have hpos : 0 < (sumTokens invsW).toRat := by
    rw [hsum]
    show (0 : ℚ) < ((40 : Int) : ℚ) / ((1 : Nat) : ℚ)
    norm_num
  have h := (claim3_average_price envW userW propertyW "u-1" invsW []
    (by decide)).2.2.1 hpos
  rw [h.1]
  decide

/-! ## C4 -/

/-- C4: in the portfolio assembly, the ownership percentage is the
exact quotient totalOwnedTokens / property total token supply times
100 when the supply is positive — with the presentation model holding
that value rendered to two decimal places — and zero (rendered "0.00")
when the supply is zero; the guard makes the assembler total in the
zero case, so no division error is raised. -/
theorem claim4_ownership_percentage (env : Env) (user : User) (property : Property)
    (userId : String) (invs : List Investment) (txns : List Transaction)
    (hwf : ∀ i ∈ invs, i.tokensPurchased.Wf) (hp : property.totalTokens.Wf) :
    (0 < property.totalTokens.toRat →
      (buildPortfolioTemplateData env user property userId invs txns).ownershipPercentage =
        toFixed2 (((sumTokens invs).divD property.totalTokens).times 100) ∧
      (((sumTokens invs).divD property.totalTokens).times 100).toRat =
        (sumTokens invs).toRat / property.totalTokens.toRat * 100) ∧
    (property.totalTokens.toRat = 0 →
      (buildPortfolioTemplateData env user property userId invs txns).ownershipPercentage =
        "0.00") := by
  have hswf : (sumTokens invs).Wf := sumTokens_wf invs hwf
  constructor
  · intro hpos
    have hnz : property.totalTokens.num ≠ 0 := by
      intro h
      have hzero : property.totalTokens.toRat = 0 := by
        show ((property.totalTokens.num : Int) : ℚ) / _ = 0
        rw [h]
        norm_num
      rw [hzero] at hpos
      exact lt_irrefl 0 hpos
    have hdwf : ((sumTokens invs).divD property.totalTokens).Wf := by
      unfold Decimal.divD
      by_cases hneg : property.totalTokens.num < 0
      · rw [if_pos hneg]
        exact decNorm_wf _ _
          (Nat.mul_ne_zero hswf (fun h => hnz (Int.natAbs_eq_zero.mp h)))
      · rw [if_neg hneg]
        exact decNorm_wf _ _
          (Nat.mul_ne_zero hswf (fun h => hnz (Int.natAbs_eq_zero.mp h)))
    have hg : property.totalTokens.gt 0 = true := by
      rw [Decimal.gt_toRat property.totalTokens 0 hp decimal_zero_wf, decimal_zero_toRat]
      exact hpos
    constructor
    · simp only [buildPortfolioTemplateData, hg, if_true]
    · have h100 : (100 : Decimal).toRat = 100 := by
        show ((100 : Int) : ℚ) / ((1 : Nat) : ℚ) = 100
        norm_num
      rw [Decimal.times_toRat _ _ hdwf (by decide),
        Decimal.divD_toRat (sumTokens invs) property.totalTokens hswf hp, h100]
  · intro hzero
    have hg : property.totalTokens.gt 0 = false := by
      cases hgt : property.totalTokens.gt 0
      · rfl
      · exfalso
        have := (Decimal.gt_toRat property.totalTokens 0 hp decimal_zero_wf).mp hgt
        rw [decimal_zero_toRat, hzero] at this
        exact lt_irrefl 0 this
    simp only [buildPortfolioTemplateData, hg, Bool.false_eq_true, if_false]
    decide

/-- C4 witness: 40 owned of 1000 supply renders "4.00"; a zero-supply
property renders "0.00" with no error. -/
theorem claim4_witness :
    (buildPortfolioTemplateData envW userW propertyW "u-1" invsW []).ownershipPercentage =
      "4.00" ∧
    (buildPortfolioTemplateData envW userW propertyZeroW "u-1" invsW []).ownershipPercentage =
      "0.00" := by
  constructor
  · have hpos : 0 < propertyW.totalTokens.toRat := by
      show (0 : ℚ) < ((1000 : Int) : ℚ) / ((1 : Nat) : ℚ)
      norm_num
    have h := (claim4_ownership_percentage envW userW propertyW "u-1" invsW []
      (by decide) (by decide)).1 hpos
    rw [h.1]
    decide
  · have hz : propertyZeroW.totalTokens.toRat = 0 := by
      show ((0 : Int) : ℚ) / ((1 : Nat) : ℚ) = 0
      norm_num
    exact (claim4_ownership_percentage envW userW propertyZeroW "u-1" invsW []
      (by decide) (by decide)).2 hz

/-! ## C5 -/

/-- C5: the investment-mirror step uses the investment found by the
explicitly supplied id when it exists; otherwise the most recent
investment matching the transaction's userId/propertyId; when neither
resolves it writes nothing to the investments table, records the
failure in the log, and the overall generation still succeeds: the
transaction path write occurs and the URLs are returned. -/
theorem claim5_investment_mirror (db1 : Db) (t : Transaction) (uid pid url : String)
    (hu : t.userId = some uid) (hp : t.propertyId = some pid) :
    (∀ iid i, db1.investments.find? (fun x => x.id == iid) = some i →
      mirrorToInvestment db1 t (some iid) url =
        ([Eff.saveInvestmentPath i.id url], setInvestmentPath db1 i.id url)) ∧
    (∀ iid j, db1.investments.find? (fun x => x.id == iid) = none →
      latestInvestmentFor db1 uid pid = some j →
      mirrorToInvestment db1 t (some iid) url =
        ([Eff.log ("Investment " ++ iid ++ " not found, trying to find by user/property"),
          Eff.saveInvestmentPath j.id url], setInvestmentPath db1 j.id url)) ∧
    (∀ j, latestInvestmentFor db1 uid pid = some j →
      mirrorToInvestment db1 t none url =
        ([Eff.saveInvestmentPath j.id url], setInvestmentPath db1 j.id url)) ∧
    (∀ iid, db1.investments.find? (fun x => x.id == iid) = none →
      latestInvestmentFor db1 uid pid = none →
      mirrorToInvestment db1 t (some iid) url =
        ([Eff.log ("Investment " ++ iid ++ " not found, trying to find by user/property"),
          Eff.log ("Investment not found for userId=" ++ uid ++ " propertyId=" ++ pid ++
            ": certificate was generated but NOT saved to investment table")], db1)) ∧
    (latestInvestmentFor db1 uid pid = none →
      mirrorToInvestment db1 t none url =
        ([Eff.log ("Investment not found for userId=" ++ uid ++ " propertyId=" ++ pid ++
          ": certificate was generated but NOT saved to investment table")], db1)) ∧
    (∀ env db tid iid tt user property,
      db.transactions.find? (fun x => x.id == tid) = some tt →
      tt.userId.bind (fun u2 => db.users.find? (fun u => u.id == u2)) = some user →
      tt.propertyId.bind (fun p2 => db.properties.find? (fun pr => pr.id == p2)) =
        some property →
      tt.certificatePath = none →
      (∀ path bytes, (env.uploadCertificate path bytes).isOk = true) →
      ∃ r tr db2, generateTransactionCertificate env db tid iid = (.ok r, tr, db2) ∧
        Eff.saveTransactionPath tt.id r.certificatePath ∈ tr) := by
  refine ⟨?_, ?_, ?_, ?_, ?_, ?_⟩
  · intro iid i hfind
    simp [mirrorToInvestment, hu, hp, hfind]
  · intro iid j hfind hlatest
    simp only [mirrorToInvestment, hu, hp, hfind, hlatest, Option.isNone_none, if_true,
      List.cons_append, List.nil_append]
  · intro j hlatest
    simp only [mirrorToInvestment, hu, hp, hlatest, List.nil_append]
  · intro iid hfind hlatest
    simp only [mirrorToInvestment, hu, hp, hfind, hlatest, Option.isNone_none, if_true,
      List.cons_append, List.nil_append]
  · intro hlatest
    simp only [mirrorToInvestment, hu, hp, hlatest, List.nil_append]
  · intro env db tid iid tt user property hfind hus hpr hcert hok
    cases hup : env.uploadCertificate
        ("transactions/" ++ jsShow tt.userId ++ "/" ++ tt.id ++ ".pdf")
        (env.generateFromHtml (env.renderTxHtml (buildTxTemplateData env tt user property
          (match tt.userId, tt.propertyId with
           | some u2, some p2 => latestInvestmentFor db u2 p2
           | _, _ => none)))) with
    | error e =>
      have := hok ("transactions/" ++ jsShow tt.userId ++ "/" ++ tt.id ++ ".pdf")
        (env.generateFromHtml (env.renderTxHtml (buildTxTemplateData env tt user property
          (match tt.userId, tt.propertyId with
           | some u2, some p2 => latestInvestmentFor db u2 p2
           | _, _ => none))))
      rw [hup] at this
      simp [Except.isOk, Except.toBool] at this
    | ok up =>
      refine ⟨⟨env.getCertificatePublicUrl up, env.createSignedUrl up⟩,
        [Eff.render,
         Eff.upload ("transactions/" ++ jsShow tt.userId ++ "/" ++ tt.id ++ ".pdf"),
         Eff.saveTransactionPath tt.id (env.getCertificatePublicUrl up)] ++
          (mirrorToInvestment (setTransactionPath db tt.id (env.getCertificatePublicUrl up)) tt
            iid (env.getCertificatePublicUrl up)).1,
        (mirrorToInvestment (setTransactionPath db tt.id (env.getCertificatePublicUrl up)) tt
          iid (env.getCertificatePublicUrl up)).2, ?_, ?_⟩
      · simp only [generateTransactionCertificate, hfind, hus, hpr, hcert, hup]
      · simp

/-- C5 witness: with no investment on file, the mirror write is skipped
with only a log entry and the database untouched, while the overall
generation still succeeds and persists the transaction path. -/
theorem claim5_witness :
    (∃ r tr db2,
      generateTransactionCertificate envW dbNoMirrorW
        "11111111-1111-1111-1111-111111111111" none = (.ok r, tr, db2) ∧
      Eff.saveTransactionPath "11111111-1111-1111-1111-111111111111" r.certificatePath ∈ tr) ∧
    mirrorToInvestment dbNoMirrorW (sampleTx "1000.00") none "u" =
      ([Eff.log ("Investment not found for userId=u-1 propertyId=p-1" ++
        ": certificate was generated but NOT saved to investment table")], dbNoMirrorW) := by
  have h := claim5_investment_mirror dbNoMirrorW (sampleTx "1000.00") "u-1" "p-1" "u" rfl rfl
  constructor
  · exact h.2.2.2.2.2 envW dbNoMirrorW "11111111-1111-1111-1111-111111111111" none
      (sampleTx "1000.00") userW propertyW (by decide) (by decide) (by decide) rfl
      (fun _ _ => rfl)
  · exact h.2.2.2.2.1 (by decide)

/-! ## C6 -/

/-- C6: the rendering strategy invokes the Typesetting Renderer first
when configured and returns its output on success; on a compiler
failure, or when it is not configured, the strategy falls back to the
Browser Rendering Renderer — recording the failure — and the resulting
document is always non-empty. -/
theorem claim6_render_fallback :
    (∀ markup : String,
      renderWithFallback none markup = (browserRenderBytes markup, []) ∧
      browserRenderBytes markup ≠ []) ∧
    (∀ (compileFn : String → Except String (List Nat)) (markup : String) (b : List Nat),
      compileFn markup = .ok b →
      renderWithFallback (some compileFn) markup = (b, [])) ∧
    (∀ (compileFn : String → Except String (List Nat)) (markup e : String),
      compileFn markup = .error e →
      (renderWithFallback (some compileFn) markup).1 = browserRenderBytes markup ∧
      (renderWithFallback (some compileFn) markup).2 =
        ["Typesetting renderer failed: " ++ e ++ ", falling back to browser renderer"] ∧
      (renderWithFallback (some compileFn) markup).1 ≠ []) := by
  refine ⟨?_, ?_, ?_⟩
  · intro markup
    exact ⟨rfl, by simp [browserRenderBytes]⟩
  · intro compileFn markup b hok
    simp [renderWithFallback, hok]
  · intro compileFn markup e herr
    simp [renderWithFallback, herr, browserRenderBytes]

/-- C6 witness: with a concrete failing compiler (missing toolchain),
the fallback still yields the non-empty browser document. -/
theorem claim6_witness :
    (renderWithFallback (some (fun _ => .error "pdflatex not installed")) "doc").1 =
      browserRenderBytes "doc" ∧
    (renderWithFallback (some (fun _ => .error "pdflatex not installed")) "doc").1 ≠ [] := by
  have h := claim6_render_fallback.2.2 (fun _ => .error "pdflatex not installed") "doc"
    "pdflatex not installed" rfl
  exact ⟨h.1, h.2.2⟩

/-! ## C7 -/

theorem strAppend_data (s t : String) : (s ++ t).data = s.data ++ t.data := by
  cases s
  cases t
  rfl

theorem str_append_ne_empty_right (a b : String) (hb : b ≠ "") : a ++ b ≠ "" := by
  intro hcon
  have hdata : a.data ++ b.data = [] := by
    rw [← strAppend_data]
    exact congrArg String.data hcon
  rcases List.append_eq_nil.mp hdata with ⟨-, hbnil⟩
  apply hb
  cases b
  simp_all

theorem str_append_ne_empty_left (a b : String) (ha : a ≠ "") : a ++ b ≠ "" := by
  intro hcon
  have hdata : a.data ++ b.data = [] := by
    rw [← strAppend_data]
    exact congrArg String.data hcon
  rcases List.append_eq_nil.mp hdata with ⟨hanil, -⟩
  apply ha
  cases a
  simp_all

theorem natToString_ne_empty (n : Nat) : natToString n ≠ "" := by
  have hne : natToDigits (n + 1) n ≠ [] := by
    by_cases h : n < 10 <;> simp [natToDigits, h]
  intro hcon
  exact hne (congrArg String.data hcon)

theorem decToString_ne_empty (q : Decimal) : decToString q ≠ "" := by
  unfold decToString
  cases hk : decExp q.den with
  | none => exact str_append_ne_empty_right _ _ (natToString_ne_empty _)
  | some k =>
    by_cases hf : q.num.natAbs * (10 ^ k / q.den) % 10 ^ k == 0
    · simp only [hf, if_true]
      exact str_append_ne_empty_right _ _ (natToString_ne_empty _)
    · simp only [hf, Bool.false_eq_true, if_false]
      exact str_append_ne_empty_left _ _
        (str_append_ne_empty_right _ _ (by decide : ("." : String) ≠ ""))

/-- C7: stamp downloads follow 301/302 redirects (one hop shown
concretely, and every redirect status makes a recursive hop), every
other non-200 status is a fetch failure; a failed SECP fetch is
non-fatal — the warning is recorded, the SBP stamp is still drawn
independently when it succeeds, and the whole document (page break and
footer included) is still produced; symmetrically for a failed SBP
fetch. -/
theorem claim7_stamp_download :
    (∀ (world : String → HttpResp) (fuel : Nat) (url : String),
      ((world url).status = 301 ∨ (world url).status = 302) →
      downloadFile world (fuel + 1) url =
        downloadFile world fuel ((world url).location.getD url)) ∧
    (∀ (world : String → HttpResp) (url u2 : String),
      (world url).status = 302 → (world url).location = some u2 →
      (world u2).status = 200 →
      downloadFile world 2 url = .ok (world u2).body) ∧
    (∀ (world : String → HttpResp) (fuel : Nat) (url : String),
      (world url).status ≠ 200 → (world url).status ≠ 301 → (world url).status ≠ 302 →
      downloadFile world (fuel + 1) url =
        .error ("Failed to download file: " ++ natToString (world url).status)) ∧
    (∀ (fetch : String → Except String (List Nat)) (secp sbp : Option String) (u e : String),
      secp = some u → u ≠ "" → fetch u = .error e →
      "Failed to load SECP stamp" ∈ (stampsSection fetch secp sbp).2 ∧
      (∀ v b, sbp = some v → v ≠ "" → fetch v = .ok b →
        (stampsSection fetch secp sbp).1 =
          [DrawOp.image ((a4Width.divD 2).sub 120) ((a4Height.divD 2).sub 100) 120 120]) ∧
      (sbp = none → (stampsSection fetch secp sbp).1 = [])) ∧
    (∀ (fetch : String → Except String (List Nat)) (secp sbp : Option String) (v e : String),
      sbp = some v → v ≠ "" → fetch v = .error e →
      "Failed to load SBP stamp" ∈ (stampsSection fetch secp sbp).2) ∧
    (∀ (fetch : String → Except String (List Nat)) (d : CertificateData),
      DrawOp.addPage ∈ (pdfTransactionOps fetch d).1 ∧
      DrawOp.footerText "Verification: Valid" ∈ (pdfTransactionOps fetch d).1 ∧
      (pdfTransactionOps fetch d).2 =
        (stampsSection fetch d.secpStampUrl d.sbpStampUrl).2) ∧
    (∀ (fetch : String → Except String (List Nat)) (d : PortfolioData),
      DrawOp.addPage ∈ (pdfPortfolioOps fetch d).1 ∧
      DrawOp.footerText "Verification: Valid" ∈ (pdfPortfolioOps fetch d).1 ∧
      (pdfPortfolioOps fetch d).2 =
        (stampsSection fetch d.secpStampUrl d.sbpStampUrl).2) := by
  refine ⟨?_, ?_, ?_, ?_, ?_, ?_, ?_⟩
  · intro world fuel url hred
    rcases hred with h | h <;> simp [downloadFile, h]
  · intro world url u2 h302 hloc h200
    simp [downloadFile, h302, hloc, h200]
  · intro world fuel url h200 h301 h302
    simp [downloadFile, h200, h301, h302]
  · intro fetch secp sbp u e hsecp hu herr
    subst hsecp
    have htr : jsTruthy (some u) = true := by simp [jsTruthy, hu]
    refine ⟨?_, ?_, ?_⟩
    · simp [stampsSection, htr, herr]
    · intro v b hsbp hv hok
      subst hsbp
      have htr2 : jsTruthy (some v) = true := by simp [jsTruthy, hv]
      simp [stampsSection, htr, htr2, herr, hok]
    · intro hsbp
      subst hsbp
      simp [stampsSection, htr, herr, jsTruthy, hu]
  · intro fetch secp sbp v e hsbp hv herr
    subst hsbp
    have htr : jsTruthy (some v) = true := by simp [jsTruthy, hv]
    cases hsecp : jsTruthy secp
    · simp [stampsSection, hsecp, htr, herr]
    · cases hfe : fetch (secp.getD "") <;> simp [stampsSection, hsecp, htr, herr, hfe]
  · intro fetch d
    refine ⟨?_, ?_, ?_⟩ <;> simp [pdfTransactionOps]
  · intro fetch d
    refine ⟨?_, ?_, ?_⟩ <;> simp [pdfPortfolioOps]

theorem claim7_witness :
    downloadFile worldW 2 "http://assets/sbp" = .ok [7, 7] ∧
    downloadFile worldW 2 "http://cdn/secp" =
      .error ("Failed to download file: " ++ natToString 404) ∧
    "Failed to load SECP stamp" ∈
      (stampsSection fetchW (some "http://cdn/secp") (some "http://assets/sbp")).2 ∧
    (stampsSection fetchW (some "http://cdn/secp") (some "http://assets/sbp")).1 =
      [DrawOp.image ((a4Width.divD 2).sub 120) ((a4Height.divD 2).sub 100) 120 120] := by
  have h := claim7_stamp_download
  refine ⟨?_, ?_, ?_, ?_⟩
  · exact h.2.1 worldW "http://assets/sbp" "http://cdn/sbp" rfl rfl rfl
  · exact h.2.2.1 worldW 1 "http://cdn/secp" (by decide) (by decide) (by decide)
  · exact (h.2.2.2.1 fetchW (some "http://cdn/secp") (some "http://assets/sbp")
      "http://cdn/secp" ("Failed to download file: " ++ natToString 404) rfl (by decide)
      rfl).1
  · exact (h.2.2.2.1 fetchW (some "http://cdn/secp") (some "http://assets/sbp")
      "http://cdn/secp" ("Failed to download file: " ++ natToString 404) rfl (by decide)
      rfl).2.1 "http://assets/sbp" [7, 7] rfl (by decide) rfl

/-! ## C8 -/

/-- C8: a portfolio history row's tokens value is the rendered
`tokensPurchased` of an investment whose userId and propertyId equal
the transaction's (the found investment provably matches both); when no
investment matches, the row shows "0" and the assembler still produces
the row (it is a total function, so no error is raised). -/
theorem claim8_row_tokens (env : Env) (invs : List Investment) (txn : Transaction) :
    (∀ i, invs.find? (fun inv =>
        txn.userId == some inv.userId && txn.propertyId == some inv.propertyId) = some i →
      (buildTxRow env invs txn).tokens = decToString i.tokensPurchased ∧
      txn.userId = some i.userId ∧ txn.propertyId = some i.propertyId) ∧
    (invs.find? (fun inv =>
        txn.userId == some inv.userId && txn.propertyId == some inv.propertyId) = none →
      (buildTxRow env invs txn).tokens = "0") := by
  constructor
  · intro i hfind
    have hmatch := List.find?_some hfind
    simp only [Bool.and_eq_true, beq_iff_eq] at hmatch
    have hne : (decToString i.tokensPurchased == "") = false := by
      rw [beq_eq_false_iff_ne]
      exact decToString_ne_empty _
    refine ⟨?_, hmatch.1, hmatch.2⟩
    simp [buildTxRow, hfind, jsOrStr, hne]
  · intro hfind
    simp [buildTxRow, hfind, jsOrStr]

/-- C8 witness: the matching transaction row shows the investment's
token count "10"; a transaction of a different user shows "0". -/
theorem claim8_witness :
    (buildTxRow envW invsW txnForRowW).tokens = "10" ∧
    (buildTxRow envW invsW txnNoMatchW).tokens = "0" := by
  constructor
  · have h := ((claim8_row_tokens envW invsW txnForRowW).1 invW1 (by decide)).1
    rw [h]
    decide
  · exact (claim8_row_tokens envW invsW txnNoMatchW).2 (by decide)

/-! ## C9 -/

/-- C9: in both vector-rendered documents the op stream is primary
content, then an unconditional page break, then the stamps, then the
footer; every stamp is a 120pt square at the vertical position computed
from the page's total height, at one of the two side-by-side slots
separated by the 40pt gap; when both stamps resolve they occupy both
slots; and the number of stamps drawn is the independent sum of the two
presence/download outcomes (one, both, or neither). -/
theorem claim9_layout (fetch : String → Except String (List Nat)) (d : CertificateData)
    (dp : PortfolioData) (secp sbp : Option String) :
    (∃ pre post, (pdfTransactionOps fetch d).1 =
        pre ++ [DrawOp.addPage] ++ (stampsSection fetch d.secpStampUrl d.sbpStampUrl).1 ++
          post ∧
      (∀ op ∈ pre, ∃ name, op = DrawOp.contentSection name) ∧
      (∀ op ∈ post, ∃ s, op = DrawOp.footerText s)) ∧
    (∃ pre post, (pdfPortfolioOps fetch dp).1 =
        pre ++ [DrawOp.addPage] ++ (stampsSection fetch dp.secpStampUrl dp.sbpStampUrl).1 ++
          post ∧
      (∀ op ∈ pre, ∃ name, op = DrawOp.contentSection name) ∧
      (∀ op ∈ post, ∃ s, op = DrawOp.footerText s)) ∧
    (∀ x y w h, DrawOp.image x y w h ∈ (stampsSection fetch secp sbp).1 →
      w = 120 ∧ h = 120 ∧ y = (a4Height.divD 2).sub 100 ∧
      (x = (a4Width.divD 2).sub 120 ∨
        x = (((a4Width.divD 2).sub 120).plus 120).plus 40)) ∧
    (∀ u v bu bv, secp = some u → u ≠ "" → fetch u = .ok bu →
      sbp = some v → v ≠ "" → fetch v = .ok bv →
      (stampsSection fetch secp sbp).1 =
        [DrawOp.image ((a4Width.divD 2).sub 120) ((a4Height.divD 2).sub 100) 120 120,
         DrawOp.image ((((a4Width.divD 2).sub 120).plus 120).plus 40)
           ((a4Height.divD 2).sub 100) 120 120]) ∧
    ((stampsSection fetch secp sbp).1.length =
      (if stampDrawn fetch secp then 1 else 0) + (if stampDrawn fetch sbp then 1 else 0)) := by
  refine ⟨?_, ?_, ?_, ?_, ?_⟩
  · refine ⟨_, _, rfl, ?_, ?_⟩
    · intro op hop
      by_cases hb : jsTruthy d.blockchainHash
      · simp [hb] at hop
        rcases hop with rfl | rfl | rfl | rfl | rfl <;> exact ⟨_, rfl⟩
      · simp [hb] at hop
        rcases hop with rfl | rfl | rfl | rfl <;> exact ⟨_, rfl⟩
    · intro op hop
      simp at hop
      rcases hop with rfl | rfl | rfl | rfl <;> exact ⟨_, rfl⟩
  · refine ⟨_, _, rfl, ?_, ?_⟩
    · intro op hop
      by_cases hb : dp.transactions.isEmpty
      · simp [hb] at hop
        rcases hop with rfl | rfl | rfl | rfl <;> exact ⟨_, rfl⟩
      · simp [hb] at hop
        rcases hop with rfl | rfl | rfl | rfl | rfl <;> exact ⟨_, rfl⟩
    · intro op hop
      simp at hop
      rcases hop with rfl | rfl | rfl | rfl <;> exact ⟨_, rfl⟩
  · intro x y w h hmem
    unfold stampsSection at hmem
    by_cases h1 : jsTruthy secp
    · cases hf1 : fetch (secp.getD "") with
      | ok b1 =>
        by_cases h2 : jsTruthy sbp
        · cases hf2 : fetch (sbp.getD "") with
          | ok b2 =>
            simp [h1, h2, hf1, hf2] at hmem
            rcases hmem with ⟨rfl, rfl, rfl, rfl⟩ | ⟨rfl, rfl, rfl, rfl⟩
            · exact ⟨rfl, rfl, rfl, Or.inl rfl⟩
            · exact ⟨rfl, rfl, rfl, Or.inr rfl⟩
          | error e2 =>
            simp [h1, h2, hf1, hf2] at hmem
            rcases hmem with ⟨rfl, rfl, rfl, rfl⟩
            exact ⟨rfl, rfl, rfl, Or.inl rfl⟩
        · simp [h1, h2, hf1] at hmem
          rcases hmem with ⟨rfl, rfl, rfl, rfl⟩
          exact ⟨rfl, rfl, rfl, Or.inl rfl⟩
      | error e1 =>
        by_cases h2 : jsTruthy sbp
        · cases hf2 : fetch (sbp.getD "") with
          | ok b2 =>
            simp [h1, h2, hf1, hf2] at hmem
            rcases hmem with ⟨rfl, rfl, rfl, rfl⟩
            exact ⟨rfl, rfl, rfl, Or.inl rfl⟩
          | error e2 => simp [h1, h2, hf1, hf2] at hmem
        · simp [h1, h2, hf1] at hmem
    · by_cases h2 : jsTruthy sbp
      · cases hf2 : fetch (sbp.getD "") with
        | ok b2 =>
          simp [h1, h2, hf2] at hmem
          rcases hmem with ⟨rfl, rfl, rfl, rfl⟩
          exact ⟨rfl, rfl, rfl, Or.inl rfl⟩
        | error e2 => simp [h1, h2, hf2] at hmem
      · simp [h1, h2] at hmem
  · intro u v bu bv hsecp hu hfu hsbp hv hfv
    subst hsecp
    subst hsbp
    have h1 : jsTruthy (some u) = true := by simp [jsTruthy, hu]
    have h2 : jsTruthy (some v) = true := by simp [jsTruthy, hv]
    simp [stampsSection, h1, h2, hfu, hfv]
  · unfold stampsSection stampDrawn
    by_cases h1 : jsTruthy secp
    · cases hf1 : fetch (secp.getD "") with
      | ok b1 =>
        by_cases h2 : jsTruthy sbp
        · cases hf2 : fetch (sbp.getD "") <;>
            simp [h1, h2, hf1, hf2, Except.isOk, Except.toBool]
        · simp [h1, h2, hf1, Except.isOk, Except.toBool]
      | error e1 =>
        by_cases h2 : jsTruthy sbp
        · cases hf2 : fetch (sbp.getD "") <;>
            simp [h1, h2, hf1, hf2, Except.isOk, Except.toBool]
        · simp [h1, h2, hf1, Except.isOk, Except.toBool]
    · by_cases h2 : jsTruthy sbp
      · cases hf2 : fetch (sbp.getD "") <;>
          simp [h1, h2, hf2, Except.isOk, Except.toBool]
      · simp [h1, h2]

/-- C9 witness: with both stamp downloads succeeding, the two 120pt
stamps occupy the two side-by-side slots (40pt gap) at the height
computed from the page, and exactly two stamps are drawn. -/
theorem claim9_witness :
    (stampsSection (fun _ => .ok [1]) (some "s") (some "b")).1 =
      [DrawOp.image ((a4Width.divD 2).sub 120) ((a4Height.divD 2).sub 100) 120 120,
       DrawOp.image ((((a4Width.divD 2).sub 120).plus 120).plus 40)
         ((a4Height.divD 2).sub 100) 120 120] ∧
    (stampsSection (fun _ => .ok [1]) (some "s") (some "b")).1.length = 2 := by
  have h := claim9_layout (fun _ => .ok [1]) certDataW portDataW (some "s") (some "b")
  constructor
  · exact h.2.2.2.1 "s" "b" [1] [1] rfl (by decide) rfl rfl (by decide) rfl
  · rw [h.2.2.2.2]
    decide

/-! ## C10 -/

/-- C10: `generatePortfolioSummary` never writes to any repository: the
database is returned unchanged on every path and the effect trace holds
only render and upload events; there is no idempotency shortcut — every
successful invocation renders once and uploads once to the
deterministic portfolio path, regardless of any previously stored
document. -/
theorem claim10_portfolio_no_writes (env : Env) (db : Db) (userId propertyId : String) :
    ((generatePortfolioSummary env db userId propertyId).2.2 = db) ∧
    (∀ e ∈ (generatePortfolioSummary env db userId propertyId).2.1,
      e = Eff.render ∨ ∃ p, e = Eff.upload p) ∧
    (∀ r, (generatePortfolioSummary env db userId propertyId).1 = .ok r →
      ∃ pid, (generatePortfolioSummary env db userId propertyId).2.1 =
        [Eff.render, Eff.upload ("portfolio/" ++ userId ++ "/" ++ pid ++ ".pdf")]) := by
  unfold generatePortfolioSummary
  cases hfu : db.users.find? (fun u => u.id == userId) with
  | none => refine ⟨rfl, by simp, by simp⟩
  | some user =>
    cases hfp : (if isUuidFormat propertyId then
        db.properties.find? (fun p => p.id == propertyId)
      else db.properties.find? (fun p => p.displayCode == propertyId)) with
    | none => refine ⟨rfl, by simp, by simp⟩
    | some property =>
      by_cases hinv : (confirmedInvestments db userId property.id).isEmpty
      · refine ⟨?_, ?_, ?_⟩ <;> simp [hinv]
      · cases hup : env.uploadCertificate
            ("portfolio/" ++ userId ++ "/" ++ property.id ++ ".pdf")
            (env.generateFromHtml (env.renderPortfolioHtml
              (buildPortfolioTemplateData env user property userId
                (confirmedInvestments db userId property.id)
                (completedTransactions db userId property.id)))) with
        | error e =>
          refine ⟨?_, ?_, ?_⟩ <;> simp [hinv, hup]
        | ok up =>
          refine ⟨?_, ?_, ?_⟩
          · simp [hinv, hup]
          · simp [hinv, hup]
          · intro r hr
            exact ⟨property.id, by simp [hinv, hup]⟩

/-- C10 witness: a successful portfolio call on a database whose
investments already carry a stored certificate path still renders once
and uploads once, and leaves the database unchanged. -/
theorem claim10_witness :
    (generatePortfolioSummary envW dbPortfolioW "u-1" "PROP-001").2.2 = dbPortfolioW ∧
    ∃ pid, (generatePortfolioSummary envW dbPortfolioW "u-1" "PROP-001").2.1 =
      [Eff.render, Eff.upload ("portfolio/" ++ "u-1" ++ "/" ++ pid ++ ".pdf")] := by
  have h := claim10_portfolio_no_writes envW dbPortfolioW "u-1" "PROP-001"
  refine ⟨h.1, ?_⟩
  exact h.2.2
    ⟨"https://store.example/storage/v1/object/public/certificates/portfolio/u-1/p-1.pdf",
     "signed:portfolio/u-1/p-1.pdf"⟩ rfl
